import Mathlib

/-!
Shallow embedding of `server/commands/services.go` from the CliffLin/travis
repository: the startup orchestration and credential-unlock subsystem.

Process-terminating failure (`ethUtils.Fatalf`, `fmt.Println` + `os.Exit(1)`)
is modelled by `Outcome.fatal`; errors returned to a Go caller are modelled
by `Except.error` / an explicit error component.  External collaborators
(keystore, console, go-ethereum node, tendermint) are modelled as oracle
functions and success flags in an environment record, following the
interface contracts in the spec (the collaborators' internals are out of
scope there as well).
-/

namespace Travis

/-- Result of a computation that may terminate the whole process
(`ethUtils.Fatalf` / `os.Exit`) instead of returning. -/
inductive Outcome (α : Type) where
  | ok (a : α)
  | fatal (msg : String)
deriving DecidableEq, Repr

/-- An `accounts.Account` from go-ethereum: an address plus the URL of the
encrypted key file backing it.  Go compares these by struct equality, which
`DecidableEq` mirrors. -/
structure Account where
  address : String
  url : String
deriving DecidableEq, Repr

/-- Possible failures of `ks.Unlock` as discriminated by `unlockAccount`:
an `*keystore.AmbiguousAddrError` carrying the colliding key-file matches,
the sentinel `keystore.ErrDecrypt`, or any other error. -/
inductive UnlockErr where
  | ambiguous (cands : List Account)
  | decrypt
  | other (msg : String)
deriving DecidableEq, Repr

/-- Embedding of `getPassPhrase` (services.go:189-215).  `p1` and `p2` are
the values the operator would type at the first and second echo-free console
prompt; the returned `Bool` records whether an interactive prompt occurred.
Console read errors are environment failures outside the data flow and are
not modelled; the passphrase-mismatch check of the confirmation branch is. -/
def getPassPhrase (confirmation : Bool) (i : Nat) (passwords : List String)
    (p1 p2 : String) : Outcome (String × Bool) :=
  if 0 < passwords.length then
    if i < passwords.length then Outcome.ok (passwords.getD i "", false)
    else Outcome.ok (passwords.getD (passwords.length - 1) "", false)
  else
    if confirmation then
      if p1 ≠ p2 then Outcome.fatal "Passphrases do not match"
      else Outcome.ok (p1, true)
    else Outcome.ok (p1, true)

/-- The first colliding match that `ks.Unlock` accepts with the given
passphrase — the `for _, a := range err.Matches` search loop inside
`ambiguousAddrRecovery` (services.go:226-231). -/
def firstUnlockable (unlockOk : Account → String → Bool) (auth : String) :
    List Account → Option Account
  | [] => none
  | a :: rest => if unlockOk a auth then some a else firstUnlockable unlockOk auth rest

/-- Embedding of `ambiguousAddrRecovery` (services.go:217-243): try each
colliding match in turn with the password already entered; the first that
unlocks is returned together with the printed remove-these list (every
match other than the selected one); if none unlocks the process dies. -/
def ambiguousAddrRecovery (unlockOk : Account → String → Bool)
    (cands : List Account) (auth : String) : Outcome (Account × List Account) :=
  match firstUnlockable unlockOk auth cands with
  | some m => Outcome.ok (m, cands.filter (fun a => !(a == m)))
  | none => Outcome.fatal "None of the listed files could be unlocked."

/-- The retry loop of `unlockAccount` (services.go:163-183).  `trials` is the
Go loop counter, `fuel` the remaining iterations (`3 - trials`).  `unlockAt
trials password` is the keystore's answer to `ks.Unlock(account, password)`
on that iteration (`none` = success).  The second component counts the
`ks.Unlock` calls made by the loop itself.  Falling out of the loop — by
exhausting the three trials or by `break` on a non-decryption error — hits
`ethUtils.Fatalf("Failed to unlock account ...")`. -/
def unlockAccountLoop (unlockAt : Nat → String → Option UnlockErr)
    (recUnlockOk : Account → String → Bool) (i : Nat) (passwords : List String)
    (promptAt : Nat → String) (account : Account) (address : String) :
    Nat → Nat → Outcome (Account × String) × Nat
  | trials, 0 => (Outcome.fatal ("Failed to unlock account " ++ address), trials)
  | trials, fuel + 1 =>
    match getPassPhrase false i passwords (promptAt trials) "" with
    | Outcome.fatal m => (Outcome.fatal m, trials)
    | Outcome.ok (password, _) =>
      match unlockAt trials password with
      | none => (Outcome.ok (account, password), trials + 1)
      | some (UnlockErr.ambiguous cands) =>
        match ambiguousAddrRecovery recUnlockOk cands password with
        | Outcome.ok (m, _) => (Outcome.ok (m, password), trials + 1)
        | Outcome.fatal msg => (Outcome.fatal msg, trials + 1)
      | some UnlockErr.decrypt =>
        unlockAccountLoop unlockAt recUnlockOk i passwords promptAt account address
          (trials + 1) fuel
      | some (UnlockErr.other _) =>
        (Outcome.fatal ("Failed to unlock account " ++ address), trials + 1)

/-- Embedding of `unlockAccount` (services.go:156-184): resolve the address
via `ethUtils.MakeAddress` (`resolve`; failure is fatal), then run the
three-trial unlock loop.  Returns the loop's outcome paired with the number
of unlock attempts made. -/
def unlockAccount (resolve : String → Option Account)
    (unlockAt : Nat → String → Option UnlockErr)
    (recUnlockOk : Account → String → Bool) (address : String) (i : Nat)
    (passwords : List String) (promptAt : Nat → String) :
    Outcome (Account × String) × Nat :=
  match resolve address with
  | none => (Outcome.fatal "Could not list accounts", 0)
  | some account =>
    unlockAccountLoop unlockAt recUnlockOk i passwords promptAt account address 0 3

/-- Go's `strings.Split(s, ",")` on the character list: split at every
comma, keeping empty fields (so `n` commas yield `n + 1` fields). -/
def splitComma : List Char → List (List Char)
  | [] => [[]]
  | c :: rest =>
    if c = ',' then [] :: splitComma rest
    else
      match splitComma rest with
      | [] => [[c]]
      | g :: gs => (c :: g) :: gs

/-- Go's `strings.Split(s, ",")`. -/
def goSplitComma (s : String) : List String :=
  (splitComma s.data).map (fun cs => String.mk cs)

/-- Go's `strings.TrimSpace`: drop leading and trailing whitespace. -/
def goTrimSpace (s : String) : String :=
  String.mk (((s.data.dropWhile Char.isWhitespace).reverse.dropWhile
    Char.isWhitespace).reverse)

/-- The indexed account loop of `startNode` (services.go:109-113): walk the
comma-split unlock list with its Go range index, keep each non-empty
whitespace-trimmed entry paired with its original index, skip blanks. -/
def unlockTargetsFrom (i : Nat) : List String → List (Nat × String)
  | [] => []
  | account :: rest =>
    if goTrimSpace account = "" then unlockTargetsFrom (i + 1) rest
    else (i, goTrimSpace account) :: unlockTargetsFrom (i + 1) rest

/-- The unlock targets extracted from the `--unlock` flag value: the
comma-split entries of `strings.Split(..., ",")` that survive trimming,
each with its position in the split (blank entries still count positions). -/
def unlockTargets (unlocks : String) : List (Nat × String) :=
  unlockTargetsFrom 0 (goSplitComma unlocks)

/-- A credential-store wallet, identified by its URL as in
`wallet.URL()`. -/
structure Wallet where
  url : String
deriving DecidableEq, Repr

/-- An `accounts.WalletEvent`: the affected wallet and the `Arrive` flag. -/
structure WalletEvent where
  wallet : Wallet
  arrive : Bool
deriving DecidableEq, Repr

/-- Observable side effects of the wallet watcher on the credential store:
an `Open("")` attempt (with its success bit), a `SelfDerive` registration,
or a `Close()`. -/
inductive WalletEffect where
  | openAttempt (w : Wallet) (success : Bool)
  | selfDerived (w : Wallet)
  | closed (w : Wallet)
deriving DecidableEq, Repr

/-- Startup phase of the watcher goroutine (services.go:127-133): open and
self-derive every wallet already attached; a failed open is logged and the
wallet skipped. -/
def openWallets (openOk : Wallet → Bool) : List Wallet → List WalletEffect
  | [] => []
  | w :: rest =>
    if openOk w then
      WalletEffect.openAttempt w true :: WalletEffect.selfDerived w ::
        openWallets openOk rest
    else WalletEffect.openAttempt w false :: openWallets openOk rest

/-- Steady-state phase of the watcher goroutine (services.go:135-150): the
`for event := range events` loop, consuming events one at a time in channel
order.  An arrival opens the wallet (self-deriving on success, logging and
skipping on failure); a departure closes it. -/
def processEvents (openOk : Wallet → Bool) : List WalletEvent → List WalletEffect
  | [] => []
  | e :: rest =>
    if e.arrive then
      (if openOk e.wallet then
        [WalletEffect.openAttempt e.wallet true, WalletEffect.selfDerived e.wallet]
      else [WalletEffect.openAttempt e.wallet false]) ++ processEvents openOk rest
    else WalletEffect.closed e.wallet :: processEvents openOk rest

/-- The two `emNode.Attach()` call sites in services.go: the one inside the
wallet-watcher goroutine (services.go:120) and the one in `startServices`
(services.go:57). -/
inductive AttachSite where
  | watcherSelfAttach
  | orchestratorAttach
deriving DecidableEq, Repr

/-- An in-process `rpc.Client`.  Modelled from the spec: the node's
`attachClient()` collaborator contract opens an in-process connection per
invocation (spec §6, §9: the two attached clients are independent
instances), so a client is identified by the call site that attached it. -/
structure RpcClient where
  site : AttachSite
deriving DecidableEq, Repr

/-- Environment for `startNode`: oracles for the keystore and console plus
success flags for the external collaborator calls it makes. -/
structure NodeEnv where
  /-- Whether `emtUtils.StartNode(stack)` succeeds (it terminates the
  process on failure).  Modelled from the spec: StartExecution failure is
  fatal; the helper lives outside `src/`. -/
  startExecOk : Bool
  /-- `ethUtils.MakeAddress(ks, address)`: address resolution. -/
  resolve : String → Option Account
  /-- `ks.Unlock(account, password)` per address, trial index and password
  (`none` = success). -/
  unlockAt : String → Nat → String → Option UnlockErr
  /-- `ks.Unlock` as used inside `ambiguousAddrRecovery`. -/
  recUnlockOk : Account → String → Bool
  /-- `ctx.GlobalString(ethUtils.UnlockedAccountFlag.Name)`. -/
  unlocksFlag : String
  /-- `ethUtils.MakePasswordList(ctx)`. -/
  passwords : List String
  /-- Interactive console input, per address and trial. -/
  promptAt : String → Nat → String
  /-- `stack.AccountManager().Wallets()` at watcher start. -/
  wallets : List Wallet
  /-- Whether `wallet.Open("")` succeeds. -/
  walletOpenOk : Wallet → Bool
  /-- Whether the goroutine's own `stack.Attach()` succeeds. -/
  watcherAttachOk : Bool

/-- The unlock loop of `startNode` over all targets, in listed order; the
first fatal unlock terminates the process, so no later target is tried. -/
def unlockAllGo (env : NodeEnv) : List (Nat × String) → Outcome (List (Account × String))
  | [] => Outcome.ok []
  | (i, addr) :: rest =>
    match unlockAccount env.resolve (env.unlockAt addr) env.recUnlockOk addr i
        env.passwords (env.promptAt addr) with
    | (Outcome.fatal m, _) => Outcome.fatal m
    | (Outcome.ok r, _) =>
      match unlockAllGo env rest with
      | Outcome.fatal m => Outcome.fatal m
      | Outcome.ok rs => Outcome.ok (r :: rs)

/-- All unlocks requested through the `--unlock` flag (services.go:107-113). -/
def unlockAll (env : NodeEnv) : Outcome (List (Account × String)) :=
  unlockAllGo env (unlockTargets env.unlocksFlag)

/-- The wallet-watcher goroutine spawned by `startNode`
(services.go:118-151): attach an in-process client (fatal on failure),
build a chain-state reader from it, open the already-attached wallets,
then consume the event channel.  `events` is the sequence of events the
channel delivers; the result pairs the state reader's client with the
effect trace on the credential store. -/
def walletWatcher (env : NodeEnv) (events : List WalletEvent) :
    Outcome (RpcClient × List WalletEffect) :=
  if env.watcherAttachOk then
    Outcome.ok (RpcClient.mk AttachSite.watcherSelfAttach,
      openWallets env.walletOpenOk env.wallets ++
        processEvents env.walletOpenOk events)
  else Outcome.fatal "Failed to attach to self"

/-- The startup stages of `startServices` in the order the code attempts
them; `unlockAccounts` and `spawnWatcher` happen inside `startNode`. -/
inductive Stage where
  | startExecution
  | unlockAccounts
  | spawnWatcher
  | resolveBackend
  | attachClient
  | buildBridge
  | startAppServer
  | createBasecoin
  | startConsensus
deriving DecidableEq, Repr

/-- The canonical stage order of a fully successful `startServices` run. -/
def stageOrder : List Stage :=
  [Stage.startExecution, Stage.unlockAccounts, Stage.spawnWatcher,
   Stage.resolveBackend, Stage.attachClient, Stage.buildBridge,
   Stage.startAppServer, Stage.createBasecoin, Stage.startConsensus]

/-- Embedding of `startNode` (services.go:101-152): start the execution
node (fatal on failure), run the unlock loop over the requested accounts
(any unlock failure is fatal), then subscribe to wallet events and spawn
the watcher goroutine.  Returns the stages attempted, in order, and the
outcome. -/
def startNode (env : NodeEnv) : List Stage × Outcome Unit :=
  if env.startExecOk then
    match unlockAll env with
    | Outcome.fatal m =>
      ([Stage.startExecution, Stage.unlockAccounts], Outcome.fatal m)
    | Outcome.ok _ =>
      ([Stage.startExecution, Stage.unlockAccounts, Stage.spawnWatcher],
        Outcome.ok ())
  else ([Stage.startExecution], Outcome.fatal "Error starting protocol stack")

/-- Environment for `startTendermint`: success flags for
`tcmd.ParseConfig`, `node.NewNode` and `n.Start()`. -/
structure TmEnv where
  parseOk : Bool
  newOk : Bool
  startOk : Bool
deriving DecidableEq, Repr

/-- The `proxy.ClientCreator` chosen by `startTendermint`: a local
in-process creator around the given application, or the default creator
for a remote proxy-app address. -/
inductive ClientCreator where
  | localCreator (app : Nat)
  | defaultCreator
deriving DecidableEq, Repr

/-- Handle id for the ethereum backend fetched by `emNode.Service`. -/
def backendHandle : Nat := 0

/-- Handle id for the ABCI server created by `server.NewServer`. -/
def abciServerHandle : Nat := 1

/-- Handle id for the tendermint node created by `node.NewNode`. -/
def tmNodeHandle : Nat := 2

/-- Handle id for the basecoin app created by `createBaseCoinApp`. -/
def basecoinHandle : Nat := 3

/-- Embedding of `startTendermint` (services.go:245-275): parse the config,
pick a client creator (local when a basecoin app is given, default
otherwise), create the node, start it.  Every failure is returned to the
caller as an error — this function never terminates the process. -/
def startTendermint (env : TmEnv) (basecoinApp : Option Nat) :
    Except String (Nat × ClientCreator) :=
  if env.parseOk then
    let papp : ClientCreator :=
      match basecoinApp with
      | some a => ClientCreator.localCreator a
      | none => ClientCreator.defaultCreator
    if env.newOk then
      if env.startOk then Except.ok (tmNodeHandle, papp)
      else Except.error "failed to start tendermint node"
    else Except.error "failed to create tendermint node"
  else Except.error "failed to parse tendermint config"

/-- The `Services` aggregate returned by `startServices` (services.go:33-38):
backend, in-process rpc client, ABCI server (`emt`), tendermint node. -/
structure Services where
  backend : Nat
  rpcClient : RpcClient
  emt : Nat
  tmNode : Nat
deriving DecidableEq, Repr

/-- How an invocation of `startServices` ends: a Go-level
`return handle, err` (both components explicit, as in the source), or a
process exit via `ethUtils.Fatalf` / `os.Exit`. -/
inductive StartResult where
  | ret (handle : Option Services) (errMsg : Option String)
  | exited (code : Nat)
deriving DecidableEq, Repr

/-- Environment for `startServices`: the `startNode` environment plus
success flags for the remaining external collaborator calls. -/
structure OrchEnv where
  node : NodeEnv
  /-- `emNode.Service(&backend)` finds the ethereum backend service. -/
  serviceOk : Bool
  /-- `emNode.Attach()` in `startServices` succeeds. -/
  attachOk : Bool
  /-- `abciApp.NewEthermintApplication(backend, rpcClient, nil)` succeeds. -/
  ethAppOk : Bool
  /-- `server.NewServer(addr, abci, ethApp)` succeeds. -/
  serverNewOk : Bool
  /-- `srv.Start()` succeeds. -/
  serverStartOk : Bool
  /-- `createBaseCoinApp(rootDir, storeApp)` succeeds.  Modelled from the
  spec: the helper is defined outside `src/`; only its success or failure
  reaches this function. -/
  basecoinOk : Bool
  tm : TmEnv

/-- Embedding of `startServices` (services.go:40-98): run `startNode`, fetch
the backend service handle, attach the in-process client, build the
Ethermint ABCI application, create and start the ABCI server, create the
basecoin app, then create and start the tendermint node.  Every failure up
to and including the basecoin app terminates the process (`Fatalf` or
`fmt.Println` + `os.Exit(1)`); an error returned by `startTendermint` is
printed and also answered with `os.Exit(1)`.  The only `return` statement
is the final `return &Services{...}, nil`.  The first component is the
trace of stages attempted, in order. -/
def startServices (env : OrchEnv) : List Stage × StartResult :=
  match startNode env.node with
  | (tr0, Outcome.fatal _) => (tr0, StartResult.exited 1)
  | (tr0, Outcome.ok _) =>
    if env.serviceOk then
      if env.attachOk then
        let rpcClient : RpcClient := RpcClient.mk AttachSite.orchestratorAttach
        if env.ethAppOk then
          if env.serverNewOk then
            if env.serverStartOk then
              if env.basecoinOk then
                match startTendermint env.tm (some basecoinHandle) with
                | Except.error _ =>
                  (tr0 ++ [Stage.resolveBackend, Stage.attachClient,
                    Stage.buildBridge, Stage.startAppServer,
                    Stage.createBasecoin, Stage.startConsensus],
                   StartResult.exited 1)
                | Except.ok (n, _) =>
                  (tr0 ++ [Stage.resolveBackend, Stage.attachClient,
                    Stage.buildBridge, Stage.startAppServer,
                    Stage.createBasecoin, Stage.startConsensus],
                   StartResult.ret
                     (some (Services.mk backendHandle rpcClient abciServerHandle n))
                     none)
              else
                (tr0 ++ [Stage.resolveBackend, Stage.attachClient,
                  Stage.buildBridge, Stage.startAppServer, Stage.createBasecoin],
                 StartResult.exited 1)
            else
              (tr0 ++ [Stage.resolveBackend, Stage.attachClient,
                Stage.buildBridge, Stage.startAppServer],
               StartResult.exited 1)
          else
            (tr0 ++ [Stage.resolveBackend, Stage.attachClient,
              Stage.buildBridge, Stage.startAppServer],
             StartResult.exited 1)
        else
          (tr0 ++ [Stage.resolveBackend, Stage.attachClient, Stage.buildBridge],
           StartResult.exited 1)
      else
        (tr0 ++ [Stage.resolveBackend, Stage.attachClient], StartResult.exited 1)
    else (tr0 ++ [Stage.resolveBackend], StartResult.exited 1)

/-! ## Derived definitions and concrete environments -/

/-- The passphrase value `getPassPhrase` yields with `confirmation = false`:
the clamped list entry when a password list is present, the operator's
console input otherwise. -/
def passValue (i : Nat) (passwords : List String) (p1 : String) : String :=
  if 0 < passwords.length then
    if i < passwords.length then passwords.getD i ""
    else passwords.getD (passwords.length - 1) ""
  else p1

/-- The open/close operations on the credential store, abstracted from the
full effect trace. -/
inductive SideOp where
  | openOp (w : Wallet)
  | closeOp (w : Wallet)
deriving DecidableEq, Repr

/-- The open/close operation (if any) an individual watcher effect
performs on the credential store; self-derivation is not an open/close. -/
def effectOp : WalletEffect → Option SideOp
  | WalletEffect.openAttempt w _ => some (SideOp.openOp w)
  | WalletEffect.selfDerived _ => none
  | WalletEffect.closed w => some (SideOp.closeOp w)

/-- The open/close operation a wallet event calls for: arrivals open, the
rest close. -/
def eventOp (e : WalletEvent) : SideOp :=
  if e.arrive then SideOp.openOp e.wallet else SideOp.closeOp e.wallet

/-- A node environment in which every external call succeeds and no
account unlock is requested. -/
def okNodeEnv : NodeEnv where
  startExecOk := true
  resolve := fun _ => some (Account.mk "0xabc" "keystore://a")
  unlockAt := fun _ _ _ => none
  recUnlockOk := fun _ _ => true
  unlocksFlag := ""
  passwords := []
  promptAt := fun _ _ => "pw"
  wallets := []
  walletOpenOk := fun _ => true
  watcherAttachOk := true

/-- An orchestrator environment in which every stage succeeds. -/
def okOrchEnv : OrchEnv where
  node := okNodeEnv
  serviceOk := true
  attachOk := true
  ethAppOk := true
  serverNewOk := true
  serverStartOk := true
  basecoinOk := true
  tm := TmEnv.mk true true true

/-- The all-success environment, except that `node.NewNode` — the
construction of the consensus node — fails. -/
def tmNewFailEnv : OrchEnv :=
  { okOrchEnv with tm := TmEnv.mk true false true }

/-- The all-success environment, except that `emtUtils.StartNode` — the
start of the execution node — fails. -/
def execFailEnv : OrchEnv :=
  { okOrchEnv with node := { okNodeEnv with startExecOk := false } }

/-- The all-success environment, except that one account unlock is
requested and its address resolution fails, so the unlock stage is
fatal. -/
def unlockFailEnv : OrchEnv :=
  { okOrchEnv with
    node := { okNodeEnv with unlocksFlag := "0xA", resolve := fun _ => none } }

/-- The all-success environment, except that `emNode.Service(&backend)` —
backend-service resolution — fails. -/
def serviceFailEnv : OrchEnv := { okOrchEnv with serviceOk := false }

/-! ## Helper lemmas -/

lemma getPassPhrase_false (i : Nat) (passwords : List String) (p1 p2 : String) :
    getPassPhrase false i passwords p1 p2 =
      Outcome.ok (passValue i passwords p1, passwords.isEmpty) := by
  rcases passwords with _ | ⟨p, ps⟩
  · simp [getPassPhrase, passValue]
  · by_cases hi : i < ps.length + 1
    · simp [getPassPhrase, passValue, hi]
    · simp [getPassPhrase, passValue, hi]

lemma passValue_clamp (i : Nat) (passwords : List String) (p1 : String)
    (h : passwords ≠ []) :
    passValue i passwords p1 = passwords.getD (min i (passwords.length - 1)) "" := by
  unfold passValue
  have hlen : 0 < passwords.length := List.length_pos.mpr h
  rw [if_pos hlen]
  by_cases hi : i < passwords.length
  · rw [if_pos hi]
    have hm : min i (passwords.length - 1) = i := by
      rw [Nat.min_def]
      split <;> omega
    rw [hm]
  · rw [if_neg hi]
    have hm : min i (passwords.length - 1) = passwords.length - 1 := by
      rw [Nat.min_def]
      split <;> omega
    rw [hm]

lemma firstUnlockable_eq_none (unlockOk : Account → String → Bool) (auth : String)
    (cands : List Account) (h : ∀ a ∈ cands, unlockOk a auth = false) :
    firstUnlockable unlockOk auth cands = none := by
  induction cands with
  | nil => rfl
  | cons a rest ih =>
    unfold firstUnlockable
    rw [h a (List.mem_cons_self a rest), if_neg (by simp)]
    exact ih fun b hb => h b (List.mem_cons_of_mem a hb)

lemma startNode_cases (nenv : NodeEnv) :
    (∃ m, startNode nenv = ([Stage.startExecution], Outcome.fatal m)) ∨
    (∃ m, startNode nenv =
      ([Stage.startExecution, Stage.unlockAccounts], Outcome.fatal m)) ∨
    startNode nenv =
      ([Stage.startExecution, Stage.unlockAccounts, Stage.spawnWatcher],
        Outcome.ok ()) := by
  unfold startNode
  by_cases h : nenv.startExecOk
  · rw [if_pos h]
    cases hu : unlockAll nenv with
    | fatal m => exact Or.inr (Or.inl ⟨m, rfl⟩)
    | ok l => exact Or.inr (Or.inr rfl)
  · rw [if_neg h]
    exact Or.inl ⟨_, rfl⟩

lemma startNode_ok (nenv : NodeEnv) (h : (startNode nenv).2 = Outcome.ok ()) :
    startNode nenv =
      ([Stage.startExecution, Stage.unlockAccounts, Stage.spawnWatcher],
        Outcome.ok ()) := by
  rcases startNode_cases nenv with ⟨m, hm⟩ | ⟨m, hm⟩ | hm
  · rw [hm] at h; simp at h
  · rw [hm] at h; simp at h
  · exact hm

lemma startServices_ret_eq (env : OrchEnv) (tr : List Stage)
    (h : Option Services) (e : Option String)
    (hrun : startServices env = (tr, StartResult.ret h e)) :
    e = none ∧
    h = some (Services.mk backendHandle (RpcClient.mk AttachSite.orchestratorAttach)
      abciServerHandle tmNodeHandle) ∧
    (startNode env.node).2 = Outcome.ok () ∧
    env.serviceOk = true ∧ env.attachOk = true ∧ env.ethAppOk = true ∧
    env.serverNewOk = true ∧ env.serverStartOk = true ∧ env.basecoinOk = true ∧
    env.tm.parseOk = true ∧ env.tm.newOk = true ∧ env.tm.startOk = true ∧
    tr = stageOrder := by
  unfold startServices at hrun
  rcases startNode_cases env.node with ⟨m, hm⟩ | ⟨m, hm⟩ | hm <;> rw [hm] at hrun
  · simp at hrun
  · simp at hrun
  · cases hsvc : env.serviceOk <;> rw [hsvc] at hrun
    · simp at hrun
    · cases hatt : env.attachOk <;> rw [hatt] at hrun
      · simp at hrun
      · cases happ : env.ethAppOk <;> rw [happ] at hrun
        · simp at hrun
        · cases hnew : env.serverNewOk <;> rw [hnew] at hrun
          · simp at hrun
          · cases hst : env.serverStartOk <;> rw [hst] at hrun
            · simp at hrun
            · cases hbc : env.basecoinOk <;> rw [hbc] at hrun
              · simp at hrun
              · cases hp : env.tm.parseOk <;>
                  cases hn : env.tm.newOk <;>
                  cases hs : env.tm.startOk <;>
                  simp [startTendermint, hp, hn, hs] at hrun
                refine ⟨hrun.2.2.symm, ?_, ?_, rfl, rfl, rfl, rfl, rfl, rfl,
                  rfl, rfl, rfl, hrun.1.symm⟩
                · rw [hrun.2.1.symm]
                · rw [hm]

/-! ## Claims about the credential-unlock subsystem -/

/-- Claim C4: for every address, the unlock retry loop terminates after
exactly 3 attempts when every attempt yields a decryption error (and the
process then terminates fatally), after exactly 1 attempt when a
non-decryption, non-ambiguous-match error occurs on the first attempt (the
loop breaks and the process terminates fatally), and returns immediately —
one attempt — on a successful first attempt. -/
theorem unlockAccount_retry_policy (resolve : String → Option Account)
    (unlockAt : Nat → String → Option UnlockErr)
    (recUnlockOk : Account → String → Bool) (address : String) (i : Nat)
    (passwords : List String) (promptAt : Nat → String) (acct : Account)
    (hres : resolve address = some acct) :
    ((∀ t, t < 3 →
        unlockAt t (passValue i passwords (promptAt t)) = some UnlockErr.decrypt) →
      unlockAccount resolve unlockAt recUnlockOk address i passwords promptAt =
        (Outcome.fatal ("Failed to unlock account " ++ address), 3)) ∧
    (∀ m, unlockAt 0 (passValue i passwords (promptAt 0)) = some (UnlockErr.other m) →
      unlockAccount resolve unlockAt recUnlockOk address i passwords promptAt =
        (Outcome.fatal ("Failed to unlock account " ++ address), 1)) ∧
    (unlockAt 0 (passValue i passwords (promptAt 0)) = none →
      unlockAccount resolve unlockAt recUnlockOk address i passwords promptAt =
        (Outcome.ok (acct, passValue i passwords (promptAt 0)), 1)) := by
  refine ⟨?_, ?_, ?_⟩
  · intro h
    have h0 := h 0 (by omega)
    have h1 := h 1 (by omega)
    have h2 := h 2 (by omega)
    simp [unlockAccount, hres, unlockAccountLoop, getPassPhrase_false, h0, h1, h2]
  · intro m h0
    simp [unlockAccount, hres, unlockAccountLoop, getPassPhrase_false, h0]
  · intro h0
    simp [unlockAccount, hres, unlockAccountLoop, getPassPhrase_false, h0]

/-- Witness for C4: a keystore answering every attempt with a decryption
error exhausts all 3 attempts fatally; a first-attempt unrelated error
stops fatally after 1 attempt; a first-attempt success returns after 1
attempt. -/
theorem unlockAccount_retry_policy_witness :
    unlockAccount (fun _ => some (Account.mk "0xabc" "keystore://a"))
        (fun _ _ => some UnlockErr.decrypt) (fun _ _ => false) "0xA" 0 ["p"]
        (fun _ => "") =
      (Outcome.fatal "Failed to unlock account 0xA", 3) ∧
    unlockAccount (fun _ => some (Account.mk "0xabc" "keystore://a"))
        (fun _ _ => some (UnlockErr.other "keystore io error")) (fun _ _ => false)
        "0xA" 0 ["p"] (fun _ => "") =
      (Outcome.fatal "Failed to unlock account 0xA", 1) ∧
    unlockAccount (fun _ => some (Account.mk "0xabc" "keystore://a"))
        (fun _ _ => none) (fun _ _ => false) "0xA" 0 ["p"] (fun _ => "") =
      (Outcome.ok (Account.mk "0xabc" "keystore://a", "p"), 1) :=
  ⟨(unlockAccount_retry_policy _ _ _ "0xA" 0 ["p"] _ _ rfl).1 (fun _ _ => rfl),
   (unlockAccount_retry_policy _ _ _ "0xA" 0 ["p"] _ _ rfl).2.1 "keystore io error" rfl,
   (unlockAccount_retry_policy _ _ _ "0xA" 0 ["p"] _ _ rfl).2.2 rfl⟩

/-- Claim C5: ambiguous-match recovery tries each colliding match in turn
with the password already entered; for candidates [A, B, C] where only B
unlocks, the result is B and the remove-these list is exactly [A, C]; and
when no candidate unlocks with that password the process terminates. -/
theorem ambiguousAddrRecovery_first_match (unlockOk : Account → String → Bool)
    (auth : String) (A B C : Account)
    (hA : unlockOk A auth = false) (hB : unlockOk B auth = true)
    (_hC : unlockOk C auth = false) (hAB : A ≠ B) (hCB : C ≠ B) :
    ambiguousAddrRecovery unlockOk [A, B, C] auth = Outcome.ok (B, [A, C]) ∧
    ∀ cands, (∀ a ∈ cands, unlockOk a auth = false) →
      ambiguousAddrRecovery unlockOk cands auth =
        Outcome.fatal "None of the listed files could be unlocked." := by
  constructor
  · simp [ambiguousAddrRecovery, firstUnlockable, hA, hB, hAB, hCB]
  · intro cands h
    simp [ambiguousAddrRecovery, firstUnlockable_eq_none unlockOk auth cands h]

/-- Witness for C5: three key files for the same address of which only the
second unlocks with the entered password. -/
theorem ambiguousAddrRecovery_first_match_witness :
    ambiguousAddrRecovery (fun a _ => a == Account.mk "0xff" "keystore://B")
        [Account.mk "0xff" "keystore://A", Account.mk "0xff" "keystore://B",
         Account.mk "0xff" "keystore://C"] "pw" =
      Outcome.ok (Account.mk "0xff" "keystore://B",
        [Account.mk "0xff" "keystore://A", Account.mk "0xff" "keystore://C"]) ∧
    ambiguousAddrRecovery (fun a _ => a == Account.mk "0xff" "keystore://B")
        [Account.mk "0xff" "keystore://A"] "pw" =
      Outcome.fatal "None of the listed files could be unlocked." := by
  refine ⟨(ambiguousAddrRecovery_first_match _ "pw" _ _ _ (by decide) (by decide)
    (by decide) (by decide) (by decide)).1, ?_⟩
  exact (ambiguousAddrRecovery_first_match _ "pw" (Account.mk "0xff" "keystore://A")
    (Account.mk "0xff" "keystore://B") (Account.mk "0xff" "keystore://C")
    (by decide) (by decide) (by decide) (by decide) (by decide)).2
    [Account.mk "0xff" "keystore://A"] (by decide)

/-- Claim C6: with a supplied password list, `getPassPhrase` indexes into
the list and clamps to the last entry whenever the index is at or beyond
the list length; with no list it asks the interactive echo-free prompt
(second component `true` records that a prompt occurred). -/
theorem getPassPhrase_clamps_or_prompts (i : Nat) (passwords : List String)
    (p1 p2 : String) :
    (passwords ≠ [] →
      getPassPhrase false i passwords p1 p2 =
        Outcome.ok (passwords.getD (min i (passwords.length - 1)) "", false)) ∧
    (passwords = [] →
      getPassPhrase false i passwords p1 p2 = Outcome.ok (p1, true)) := by
  constructor
  · intro h
    rw [getPassPhrase_false, passValue_clamp i passwords p1 h]
    simp [List.isEmpty_iff, h]
  · intro h
    subst h
    simp [getPassPhrase]

/-- Witness for C6: index 5 into a two-entry list reuses the last entry;
an empty list falls back to the prompt. -/
theorem getPassPhrase_clamps_or_prompts_witness :
    getPassPhrase false 5 ["a", "b"] "typed" "x" = Outcome.ok ("b", false) ∧
    getPassPhrase false 0 [] "typed" "x" = Outcome.ok ("typed", true) :=
  ⟨(getPassPhrase_clamps_or_prompts 5 ["a", "b"] "typed" "x").1 (by decide),
   (getPassPhrase_clamps_or_prompts 0 [] "typed" "x").2 rfl⟩

/-- Claim C7: the account loop attempts one unlock per non-empty trimmed
entry of the comma-split list, in listed order (first conjunct: the
attempted addresses are exactly the trimmed non-blank entries in order;
last conjunct: a successful pass over the targets produces exactly one
result per target); for the scenario "0xABC, , 0xDEF" with passwords
["p1"] exactly the two targets 0xABC (position 0) and 0xDEF (position 2)
are attempted and the password for both positions is "p1". -/
theorem unlock_attempts_per_entry (p1 p2 p3 p4 : String) :
    (∀ (n : Nat) (l : List String),
      (unlockTargetsFrom n l).map Prod.snd =
        (l.map goTrimSpace).filter (fun t => !(t == ""))) ∧
    unlockTargets "0xABC, , 0xDEF" = [(0, "0xABC"), (2, "0xDEF")] ∧
    getPassPhrase false 0 ["p1"] p1 p2 = Outcome.ok ("p1", false) ∧
    getPassPhrase false 2 ["p1"] p3 p4 = Outcome.ok ("p1", false) ∧
    (∀ (env : NodeEnv) (l : List (Nat × String)) (rs : List (Account × String)),
      unlockAllGo env l = Outcome.ok rs → rs.length = l.length) := by
  refine ⟨?_, by decide, getPassPhrase_false 0 ["p1"] p1 p2,
    getPassPhrase_false 2 ["p1"] p3 p4, ?_⟩
  · intro n l
    induction l generalizing n with
    | nil => rfl
    | cons a rest ih =>
      by_cases ha : goTrimSpace a = ""
      · simp [unlockTargetsFrom, ha, ih]
      · simp [unlockTargetsFrom, ha, ih]
  · intro env l
    induction l with
    | nil =>
      intro rs h
      simp [unlockAllGo] at h
      simp [h.symm]
    | cons p rest ih =>
      intro rs h
      rcases p with ⟨i, addr⟩
      unfold unlockAllGo at h
      rcases hu : unlockAccount env.resolve (env.unlockAt addr) env.recUnlockOk addr i
          env.passwords (env.promptAt addr) with ⟨o, k⟩
      rw [hu] at h
      cases o with
      | fatal m => simp at h
      | ok r =>
        cases hg : unlockAllGo env rest with
        | fatal m2 => rw [hg] at h; simp at h
        | ok rs2 =>
          rw [hg] at h
          simp at h
          rw [h.symm]
          simp [ih rs2 hg]

/-- Witness for C7: one target, one successful unlock, one result. -/
theorem unlock_attempts_per_entry_witness :
    unlockTargets "0xABC, , 0xDEF" = [(0, "0xABC"), (2, "0xDEF")] ∧
    ([(Account.mk "0xabc" "keystore://a", "pw")] : List (Account × String)).length =
      ([((0 : Nat), "0xA")] : List (Nat × String)).length :=
  ⟨(unlock_attempts_per_entry "" "" "" "").2.1,
   (unlock_attempts_per_entry "" "" "" "").2.2.2.2 okNodeEnv [(0, "0xA")]
     [(Account.mk "0xabc" "keystore://a", "pw")] (by decide)⟩

/-- Claim C9: with a non-empty password list no interactive prompt occurs
(for either confirmation mode) and the password is
`passwords[min(position, len - 1)]`, so the password the retry loop
obtains is the same on every trial; positions in the comma-split list
count blank entries, as the "a,,b" split shows. -/
theorem password_list_positional (confirmation : Bool) (i : Nat)
    (passwords : List String) (p1 p2 : String) (promptAt : Nat → String)
    (h : passwords ≠ []) :
    getPassPhrase confirmation i passwords p1 p2 =
      Outcome.ok (passwords.getD (min i (passwords.length - 1)) "", false) ∧
    (∀ t u : Nat, getPassPhrase false i passwords (promptAt t) "" =
      getPassPhrase false i passwords (promptAt u) "") ∧
    unlockTargets "a,,b" = [(0, "a"), (2, "b")] := by
  have hlen : 0 < passwords.length := List.length_pos.mpr h
  refine ⟨?_, ?_, by decide⟩
  · have hc : getPassPhrase confirmation i passwords p1 p2 =
        Outcome.ok (passValue i passwords p1, false) := by
      unfold getPassPhrase passValue
      rw [if_pos hlen, if_pos hlen]
      split <;> rfl
    rw [hc, passValue_clamp i passwords p1 h]
  · intro t u
    rw [getPassPhrase_false, getPassPhrase_false]
    have hv : passValue i passwords (promptAt t) = passValue i passwords (promptAt u) := by
      unfold passValue
      rw [if_pos hlen, if_pos hlen]
    rw [hv]

/-- Witness for C9: a two-entry list with index 7 clamps to the last entry
without prompting, even with confirmation requested. -/
theorem password_list_positional_witness :
    getPassPhrase true 7 ["a", "b"] "typed" "other" = Outcome.ok ("b", false) ∧
    unlockTargets "a,,b" = [(0, "a"), (2, "b")] :=
  ⟨(password_list_positional true 7 ["a", "b"] "typed" "other" (fun _ => "z")
      (by decide)).1,
   (password_list_positional true 7 ["a", "b"] "typed" "other" (fun _ => "z")
      (by decide)).2.2⟩

/-- Claim C8: the watcher consumes wallet events one at a time in channel
order — the open/close side effects on the credential store match the
event sequence 1:1 and in order, whatever the open results are — and a
wallet that fails to open (at startup or on arrival) is merely skipped:
the loop still processes every remaining event, and the startup phase
still visits every remaining wallet. -/
theorem walletWatcher_event_order (openOk : Wallet → Bool) :
    (∀ events : List WalletEvent,
      (processEvents openOk events).filterMap effectOp = events.map eventOp) ∧
    (∀ wallets : List Wallet,
      (openWallets openOk wallets).filterMap effectOp =
        wallets.map (fun w => SideOp.openOp w)) := by
  constructor
  · intro events
    induction events with
    | nil => rfl
    | cons e rest ih =>
      by_cases ha : e.arrive
      · by_cases ho : openOk e.wallet
        · simp [processEvents, effectOp, eventOp, ha, ho, ih]
        · simp [processEvents, effectOp, eventOp, ha, ho, ih]
      · simp [processEvents, effectOp, eventOp, ha, ih]
  · intro wallets
    induction wallets with
    | nil => rfl
    | cons w rest ih =>
      by_cases ho : openOk w
      · simp [openWallets, effectOp, ho, ih]
      · simp [openWallets, effectOp, ho, ih]

/-! ## Claims about the service orchestrator -/

/-- Counterexample to claim C1 as stated: in an environment where every
stage before the consensus node succeeds but `node.NewNode` fails,
`startTendermint` does return the failure as an error, yet `startServices`
does not pass it on to its own caller — it exits the process with code 1,
so the failure is not "returned as an error to ServiceOrchestrator's
caller without exiting the process". -/
theorem consensusFailure_exits_counterexample :
    startTendermint tmNewFailEnv.tm (some basecoinHandle) =
      Except.error "failed to create tendermint node" ∧
    (startServices tmNewFailEnv).2 = StartResult.exited 1 :=
  ⟨rfl, by decide⟩

/-- Claim C1 (amended): any failure in the stages before the consensus
node — execution-node start, account unlock inside `startNode` (and any
other fatality of `startNode`), backend-service resolution, client
attach, bridge construction, application-server creation or start,
basecoin-app creation — terminates the process; a failure while
constructing or starting the ConsensusNode is returned as an error by
`startTendermint` to `startServices`, which prints it and likewise exits
the process with code 1 instead of returning it to its own caller. -/
theorem consensus_error_policy (env : OrchEnv) :
    ((env.tm.parseOk = false ∨ env.tm.newOk = false ∨ env.tm.startOk = false) →
      ∃ m, startTendermint env.tm (some basecoinHandle) = Except.error m) ∧
    (env.node.startExecOk = false → (startServices env).2 = StartResult.exited 1) ∧
    (∀ m, env.node.startExecOk = true → unlockAll env.node = Outcome.fatal m →
      (startServices env).2 = StartResult.exited 1) ∧
    (∀ m, (startNode env.node).2 = Outcome.fatal m →
      (startServices env).2 = StartResult.exited 1) ∧
    ((startNode env.node).2 = Outcome.ok () → env.serviceOk = false →
      (startServices env).2 = StartResult.exited 1) ∧
    ((startNode env.node).2 = Outcome.ok () → env.serviceOk = true →
      env.attachOk = false → (startServices env).2 = StartResult.exited 1) ∧
    ((startNode env.node).2 = Outcome.ok () → env.serviceOk = true →
      env.attachOk = true → env.ethAppOk = false →
      (startServices env).2 = StartResult.exited 1) ∧
    ((startNode env.node).2 = Outcome.ok () → env.serviceOk = true →
      env.attachOk = true → env.ethAppOk = true → env.serverNewOk = false →
      (startServices env).2 = StartResult.exited 1) ∧
    ((startNode env.node).2 = Outcome.ok () → env.serviceOk = true →
      env.attachOk = true → env.ethAppOk = true → env.serverNewOk = true →
      env.serverStartOk = false → (startServices env).2 = StartResult.exited 1) ∧
    ((startNode env.node).2 = Outcome.ok () → env.serviceOk = true →
      env.attachOk = true → env.ethAppOk = true → env.serverNewOk = true →
      env.serverStartOk = true → env.basecoinOk = false →
      (startServices env).2 = StartResult.exited 1) ∧
    ((startNode env.node).2 = Outcome.ok () → env.serviceOk = true →
      env.attachOk = true → env.ethAppOk = true → env.serverNewOk = true →
      env.serverStartOk = true → env.basecoinOk = true →
      (∃ m, startTendermint env.tm (some basecoinHandle) = Except.error m) →
      (startServices env).2 = StartResult.exited 1) := by
  refine ⟨?_, ?_, ?_, ?_, ?_, ?_, ?_, ?_, ?_, ?_, ?_⟩
  · intro hd
    cases hp : env.tm.parseOk
    · exact ⟨"failed to parse tendermint config", by simp [startTendermint, hp]⟩
    · cases hn : env.tm.newOk
      · exact ⟨"failed to create tendermint node", by simp [startTendermint, hp, hn]⟩
      · cases hs : env.tm.startOk
        · exact ⟨"failed to start tendermint node",
            by simp [startTendermint, hp, hn, hs]⟩
        · exfalso
          rcases hd with h | h | h <;> simp_all
  · intro h
    simp [startServices, startNode, h]
  · intro m hexec hu
    simp [startServices, startNode, hexec, hu]
  · intro m hm
    rcases startNode_cases env.node with ⟨m2, h2⟩ | ⟨m2, h2⟩ | h2
    · simp [startServices, h2]
    · simp [startServices, h2]
    · rw [h2] at hm
      simp at hm
  · intro hn hsvc
    simp [startServices, startNode_ok env.node hn, hsvc]
  · intro hn hsvc hatt
    simp [startServices, startNode_ok env.node hn, hsvc, hatt]
  · intro hn hsvc hatt happ
    simp [startServices, startNode_ok env.node hn, hsvc, hatt, happ]
  · intro hn hsvc hatt happ hnew
    simp [startServices, startNode_ok env.node hn, hsvc, hatt, happ, hnew]
  · intro hn hsvc hatt happ hnew hst
    simp [startServices, startNode_ok env.node hn, hsvc, hatt, happ, hnew, hst]
  · intro hn hsvc hatt happ hnew hst hbc
    simp [startServices, startNode_ok env.node hn, hsvc, hatt, happ, hnew, hst, hbc]
  · intro hn hsvc hatt happ hnew hst hbc htm
    rcases htm with ⟨m, hm⟩
    simp [startServices, startNode_ok env.node hn, hsvc, hatt, happ, hnew, hst,
      hbc, hm]

/-- Witness for C1 (amended): with consensus-node construction failing and
everything earlier succeeding, `startServices` exits the process; so does
a run whose account-unlock stage fails. -/
theorem consensus_error_policy_witness :
    (startServices tmNewFailEnv).2 = StartResult.exited 1 ∧
    (startServices unlockFailEnv).2 = StartResult.exited 1 :=
  ⟨(consensus_error_policy tmNewFailEnv).2.2.2.2.2.2.2.2.2.2 (by decide) rfl rfl
     rfl rfl rfl rfl ⟨"failed to create tendermint node", rfl⟩,
   (consensus_error_policy unlockFailEnv).2.2.1 "Could not list accounts" rfl
     (by decide)⟩

/-- Counterexample to claim C2 as stated: in a fully successful run the
stage trace is the canonical code order, in which UnlockAccounts (inside
`startNode`) comes strictly before ResolveBackend — so ResolveBackend does
not complete before UnlockAccounts begins. -/
theorem unlock_before_resolve_counterexample :
    (startServices okOrchEnv).1 = stageOrder ∧
    stageOrder.indexOf Stage.unlockAccounts < stageOrder.indexOf Stage.resolveBackend :=
  ⟨by decide, by decide⟩

/-- Claim C2 (amended): `startServices` runs its stages strictly
sequentially in the code order StartExecution, UnlockAccounts (with the
watcher spawn), ResolveBackend, AttachClient, BuildBridge,
StartApplicationServer (creation and start), basecoin-app creation,
StartConsensus — every trace is a prefix of that order, each stage begins
only after all earlier ones completed, and a fatal failure at any stage
ends the trace at exactly that stage: execution-start failure stops after
stage 1, an unlock failure after stage 2, backend-resolution failure
after `take 4`, attach failure after `take 5`, bridge failure after
`take 6`, server creation or start failure after `take 7`, basecoin
failure after `take 8`, and only a consensus failure or a full `return`
reaches the whole order. -/
theorem stages_sequential_code_order (env : OrchEnv) :
    (∃ k, (startServices env).1 = stageOrder.take k) ∧
    (env.node.startExecOk = false →
      startServices env = ([Stage.startExecution], StartResult.exited 1)) ∧
    (∀ m, env.node.startExecOk = true → unlockAll env.node = Outcome.fatal m →
      startServices env = (stageOrder.take 2, StartResult.exited 1)) ∧
    ((startNode env.node).2 = Outcome.ok () → env.serviceOk = false →
      startServices env = (stageOrder.take 4, StartResult.exited 1)) ∧
    ((startNode env.node).2 = Outcome.ok () → env.serviceOk = true →
      env.attachOk = false →
      startServices env = (stageOrder.take 5, StartResult.exited 1)) ∧
    ((startNode env.node).2 = Outcome.ok () → env.serviceOk = true →
      env.attachOk = true → env.ethAppOk = false →
      startServices env = (stageOrder.take 6, StartResult.exited 1)) ∧
    ((startNode env.node).2 = Outcome.ok () → env.serviceOk = true →
      env.attachOk = true → env.ethAppOk = true → env.serverNewOk = false →
      startServices env = (stageOrder.take 7, StartResult.exited 1)) ∧
    ((startNode env.node).2 = Outcome.ok () → env.serviceOk = true →
      env.attachOk = true → env.ethAppOk = true → env.serverNewOk = true →
      env.serverStartOk = false →
      startServices env = (stageOrder.take 7, StartResult.exited 1)) ∧
    ((startNode env.node).2 = Outcome.ok () → env.serviceOk = true →
      env.attachOk = true → env.ethAppOk = true → env.serverNewOk = true →
      env.serverStartOk = true → env.basecoinOk = false →
      startServices env = (stageOrder.take 8, StartResult.exited 1)) ∧
    ((startNode env.node).2 = Outcome.ok () → env.serviceOk = true →
      env.attachOk = true → env.ethAppOk = true → env.serverNewOk = true →
      env.serverStartOk = true → env.basecoinOk = true →
      (∃ m, startTendermint env.tm (some basecoinHandle) = Except.error m) →
      startServices env = (stageOrder, StartResult.exited 1)) ∧
    (∀ h e, (startServices env).2 = StartResult.ret h e →
      (startServices env).1 = stageOrder) := by
  refine ⟨?_, ?_, ?_, ?_, ?_, ?_, ?_, ?_, ?_, ?_, ?_⟩
  · rcases startNode_cases env.node with ⟨m, hm⟩ | ⟨m, hm⟩ | hm
    · exact ⟨1, by simp [startServices, hm, stageOrder]⟩
    · exact ⟨2, by simp [startServices, hm, stageOrder]⟩
    · cases hsvc : env.serviceOk
      · exact ⟨4, by simp [startServices, hm, hsvc, stageOrder]⟩
      · cases hatt : env.attachOk
        · exact ⟨5, by simp [startServices, hm, hsvc, hatt, stageOrder]⟩
        · cases happ : env.ethAppOk
          · exact ⟨6, by simp [startServices, hm, hsvc, hatt, happ, stageOrder]⟩
          · cases hnew : env.serverNewOk
            · exact ⟨7, by simp [startServices, hm, hsvc, hatt, happ, hnew,
                stageOrder]⟩
            · cases hst : env.serverStartOk
              · exact ⟨7, by simp [startServices, hm, hsvc, hatt, happ, hnew, hst,
                  stageOrder]⟩
              · cases hbc : env.basecoinOk
                · exact ⟨8, by simp [startServices, hm, hsvc, hatt, happ, hnew,
                    hst, hbc, stageOrder]⟩
                · refine ⟨9, ?_⟩
                  cases htm : startTendermint env.tm (some basecoinHandle)
                  · simp [startServices, hm, hsvc, hatt, happ, hnew, hst, hbc,
                      htm, stageOrder]
                  · simp [startServices, hm, hsvc, hatt, happ, hnew, hst, hbc,
                      htm, stageOrder]
  · intro h
    simp [startServices, startNode, h]
  · intro m hexec hu
    simp [startServices, startNode, hexec, hu, stageOrder]
  · intro hn hsvc
    simp [startServices, startNode_ok env.node hn, hsvc, stageOrder]
  · intro hn hsvc hatt
    simp [startServices, startNode_ok env.node hn, hsvc, hatt, stageOrder]
  · intro hn hsvc hatt happ
    simp [startServices, startNode_ok env.node hn, hsvc, hatt, happ, stageOrder]
  · intro hn hsvc hatt happ hnew
    simp [startServices, startNode_ok env.node hn, hsvc, hatt, happ, hnew,
      stageOrder]
  · intro hn hsvc hatt happ hnew hst
    simp [startServices, startNode_ok env.node hn, hsvc, hatt, happ, hnew, hst,
      stageOrder]
  · intro hn hsvc hatt happ hnew hst hbc
    simp [startServices, startNode_ok env.node hn, hsvc, hatt, happ, hnew, hst,
      hbc, stageOrder]
  · intro hn hsvc hatt happ hnew hst hbc htm
    rcases htm with ⟨m, hm⟩
    simp [startServices, startNode_ok env.node hn, hsvc, hatt, happ, hnew, hst,
      hbc, hm, stageOrder]
  · intro h e hret
    have hrun : startServices env = ((startServices env).1, StartResult.ret h e) := by
      rw [hret.symm]
    exact (startServices_ret_eq env (startServices env).1 h e
      hrun).2.2.2.2.2.2.2.2.2.2.2.2

/-- Witness for C2 (amended): an execution-node start failure stops the
run after the first stage; an unlock failure stops it after the second;
a backend-resolution failure stops it after the fourth. -/
theorem stages_sequential_code_order_witness :
    startServices execFailEnv = ([Stage.startExecution], StartResult.exited 1) ∧
    startServices unlockFailEnv = (stageOrder.take 2, StartResult.exited 1) ∧
    startServices serviceFailEnv = (stageOrder.take 4, StartResult.exited 1) :=
  ⟨(stages_sequential_code_order execFailEnv).2.1 rfl,
   (stages_sequential_code_order unlockFailEnv).2.2.1 "Could not list accounts"
     rfl (by decide),
   (stages_sequential_code_order serviceFailEnv).2.2.2.1 (by decide) rfl⟩

/-- Counterexample to claim C3 as stated: in a fully successful run, the
client inside the returned `Services` (used by the ApplicationBridge)
comes from the `startServices` attach call, while the wallet watcher's
chain-state reader comes from the goroutine's own attach call — they are
two distinct clients, not a single shared instance. -/
theorem shared_client_counterexample :
    (startServices okOrchEnv).2 = StartResult.ret
      (some (Services.mk backendHandle (RpcClient.mk AttachSite.orchestratorAttach)
        abciServerHandle tmNodeHandle)) none ∧
    walletWatcher okOrchEnv.node [] =
      Outcome.ok (RpcClient.mk AttachSite.watcherSelfAttach, []) ∧
    RpcClient.mk AttachSite.orchestratorAttach ≠
      RpcClient.mk AttachSite.watcherSelfAttach :=
  ⟨by decide, by decide, by decide⟩

/-- Claim C3 (amended): in every run in which the watcher goroutine got
its chain-state reader and `startServices` returned a handle, the
watcher's reader is the client attached inside the goroutine, the
handle's client (passed to ApplicationBridge) is the one attached by
`startServices`, and the two are distinct — each side attaches its own
independent in-process client. -/
theorem attached_clients_independent (env : OrchEnv) (events : List WalletEvent)
    (r : RpcClient) (fx : List WalletEffect) (tr : List Stage) (s : Services)
    (e : Option String)
    (hw : walletWatcher env.node events = Outcome.ok (r, fx))
    (hs : startServices env = (tr, StartResult.ret (some s) e)) :
    r = RpcClient.mk AttachSite.watcherSelfAttach ∧
    s.rpcClient = RpcClient.mk AttachSite.orchestratorAttach ∧
    r ≠ s.rpcClient := by
  have hr : r = RpcClient.mk AttachSite.watcherSelfAttach := by
    unfold walletWatcher at hw
    by_cases ha : env.node.watcherAttachOk
    · rw [if_pos ha] at hw
      simp at hw
      exact hw.1.symm
    · rw [if_neg ha] at hw
      simp at hw
  have h2 := startServices_ret_eq env tr (some s) e hs
  have hsc : s = Services.mk backendHandle
      (RpcClient.mk AttachSite.orchestratorAttach) abciServerHandle tmNodeHandle := by
    have := h2.2.1
    simpa using this
  refine ⟨hr, by rw [hsc], ?_⟩
  rw [hr, hsc]
  simp

/-- Witness for C3 (amended): the fully successful environment, with no
wallet events. -/
theorem attached_clients_independent_witness :
    RpcClient.mk AttachSite.watcherSelfAttach =
      RpcClient.mk AttachSite.watcherSelfAttach ∧
    (Services.mk backendHandle (RpcClient.mk AttachSite.orchestratorAttach)
      abciServerHandle tmNodeHandle).rpcClient =
      RpcClient.mk AttachSite.orchestratorAttach ∧
    RpcClient.mk AttachSite.watcherSelfAttach ≠
      (Services.mk backendHandle (RpcClient.mk AttachSite.orchestratorAttach)
        abciServerHandle tmNodeHandle).rpcClient :=
  attached_clients_independent okOrchEnv [] _ [] stageOrder _ none (by decide)
    (by decide)

/-- Claim C10: whenever `startServices` returns instead of exiting, the
returned error is nil and the handle is the fully populated aggregate —
backend reference, in-process client from the attach stage, ABCI server,
tendermint node — and every stage (node start and unlock, backend
resolution, attach, bridge, server creation and start, basecoin app,
tendermint parse/create/start) succeeded; there is no path returning a
partial handle or a handle together with an error. -/
theorem services_handle_fully_populated (env : OrchEnv) (tr : List Stage)
    (h : Option Services) (e : Option String)
    (hrun : startServices env = (tr, StartResult.ret h e)) :
    e = none ∧
    h = some (Services.mk backendHandle (RpcClient.mk AttachSite.orchestratorAttach)
      abciServerHandle tmNodeHandle) ∧
    (startNode env.node).2 = Outcome.ok () ∧
    env.serviceOk = true ∧ env.attachOk = true ∧ env.ethAppOk = true ∧
    env.serverNewOk = true ∧ env.serverStartOk = true ∧ env.basecoinOk = true ∧
    env.tm.parseOk = true ∧ env.tm.newOk = true ∧ env.tm.startOk = true := by
  have h2 := startServices_ret_eq env tr h e hrun
  exact ⟨h2.1, h2.2.1, h2.2.2.1, h2.2.2.2.1, h2.2.2.2.2.1, h2.2.2.2.2.2.1,
    h2.2.2.2.2.2.2.1, h2.2.2.2.2.2.2.2.1, h2.2.2.2.2.2.2.2.2.1,
    h2.2.2.2.2.2.2.2.2.2.1, h2.2.2.2.2.2.2.2.2.2.2.1, h2.2.2.2.2.2.2.2.2.2.2.2.1⟩

/-- Witness for C10: the fully successful environment returns the fully
populated handle with a nil error. -/
theorem services_handle_fully_populated_witness :
    (none : Option String) = none ∧
    some (Services.mk backendHandle (RpcClient.mk AttachSite.orchestratorAttach)
        abciServerHandle tmNodeHandle) =
      some (Services.mk backendHandle (RpcClient.mk AttachSite.orchestratorAttach)
        abciServerHandle tmNodeHandle) ∧
    (startNode okOrchEnv.node).2 = Outcome.ok () ∧
    okOrchEnv.serviceOk = true ∧ okOrchEnv.attachOk = true ∧
    okOrchEnv.ethAppOk = true ∧ okOrchEnv.serverNewOk = true ∧
    okOrchEnv.serverStartOk = true ∧ okOrchEnv.basecoinOk = true ∧
    okOrchEnv.tm.parseOk = true ∧ okOrchEnv.tm.newOk = true ∧
    okOrchEnv.tm.startOk = true :=
  services_handle_fully_populated okOrchEnv stageOrder _ _ (by decide)

end Travis
